import Mathlib

/-!
Verification development for the Otime-Discovery repository: a shallow
embedding of src/services/gemini.service.ts (location resolution) and
src/app.component.ts (component state, time conversion, swap), with theorems
settling the specification claims about them.

Modelling conventions.
The program is single-threaded and event-driven; each operation is embedded as
a pure function on an explicit component state.  The external facilities it
calls (the remote generateContent call, JSON.parse, the Intl date formatter,
the Date constructor and toLocaleString) are modelled as explicit parameters:
an outcome value for the remote call and an environment record of functions
for the date/time facilities, with Option used where the facility can throw.
JavaScript exceptions are modelled by Option/Except results; a total Lean
function models a call that can never throw.
-/

namespace Otime

/-- Model of a JavaScript runtime value as it can appear in a property of the
JSON body returned by the remote call.  `jobjV` is an object value whose
contents the program never inspects further: such values are only ever handed
to the Intl API, which stringifies them, so two distinct plain objects are
indistinguishable to the program. -/
inductive JVal where
  | jundefined
  | jnull
  | jbool (b : Bool)
  | jnum (n : Int)
  | jstr (s : String)
  | jobjV
deriving DecidableEq

/-- JavaScript truthiness of a value.  `jnum` covers the finite numbers that
JSON parsing can produce; NaN does not arise from a parsed JSON body. -/
def truthy : JVal → Bool
  | .jundefined => false
  | .jnull => false
  | .jbool b => b
  | .jnum n => n != 0
  | .jstr s => s != ""
  | .jobjV => true

/-- The seven top-level properties the service reads from the parsed JSON body
(gemini.service.ts, lines 53-64).  A property that is absent from the body
reads as `jundefined`, exactly as JavaScript property access yields undefined. -/
structure JObj where
  valid : JVal := .jundefined
  ianaTimezone : JVal := .jundefined
  fullName : JVal := .jundefined
  city : JVal := .jundefined
  country : JVal := .jundefined
  countryCode : JVal := .jundefined
  funFact : JVal := .jundefined
deriving DecidableEq

/-- A parsed top-level JSON value: either an object, projected onto the seven
properties the program reads, or a non-object value. -/
inductive JTop where
  | tobj (o : JObj)
  | tprim (v : JVal)
deriving DecidableEq

/-- Property access `data.f` on the parsed top-level value.  On a non-object
it yields undefined; for the null value the access would throw a TypeError,
which the enclosing catch in the service absorbs with the same null outcome as
the undefined case, so it is modelled uniformly as `jundefined`. -/
def jget (t : JTop) (f : JObj → JVal) : JVal :=
  match t with
  | .tobj o => f o
  | .tprim _ => .jundefined

/-- Result of JSON.parse on the response text; `perr` models a thrown
SyntaxError. -/
inductive ParseResult where
  | perr
  | pok (t : JTop)
deriving DecidableEq

/-- Outcome of the remote generateContent call: `rthrow` models a network
error, a rejection, or any other exception raised by the call itself; `rok`
carries the response text (undefined modelled as `none`) together with what
JSON.parse yields on that text. -/
inductive RemoteOutcome where
  | rthrow
  | rok (text : Option String) (parsed : ParseResult)
deriving DecidableEq

/-- The value JSON.parse is applied to in gemini.service.ts, line 53: when
`response.text` is absent or empty (falsy), the literal text of an empty
object is parsed instead, which always succeeds and yields an object with no
properties. -/
def dataOf (text : Option String) (p : ParseResult) : ParseResult :=
  match text with
  | none => .pok (.tobj {})
  | some t => if t = "" then .pok (.tobj {}) else p

/-- ASCII whitespace, modelling the characters String.prototype.trim strips
(the JavaScript version also strips some further Unicode space characters,
which do not occur in the queries of interest). -/
def isWsChar (c : Char) : Bool :=
  c = ' ' || c = '\t' || c = '\n' || c = '\r' || c = '\x0b' || c = '\x0c'

/-- Length of `query.trim()`. -/
def trimmedLen (s : String) : Nat :=
  (((s.toList.dropWhile isWsChar).reverse.dropWhile isWsChar).reverse).length

/-- The record resolveLocation builds from the parsed body.  The TypeScript
interface declares every field as `string`, but the service copies the JSON
properties without validating them, so at runtime a field can hold any value,
including undefined when the property is missing from the body. -/
structure LocationInfo where
  ianaTimezone : JVal
  fullName : JVal
  city : JVal
  country : JVal
  countryCode : JVal
  funFact : JVal
deriving DecidableEq

/-- GeminiService.resolveLocation (gemini.service.ts, lines 23-70), paired
with a flag recording whether the remote call was issued.  The length guard
returns before any network activity; every failure of the call itself is
caught by the try/catch and turned into null; a parsed body is accepted
whenever its `valid` property is truthy, its six string properties being
copied unchecked. -/
def resolveLocationRun (query : String) (remote : RemoteOutcome) :
    Option LocationInfo × Bool :=
  if query = "" ∨ trimmedLen query < 2 then (none, false)
  else
    match remote with
    | .rthrow => (none, true)
    | .rok text p =>
      match dataOf text p with
      | .perr => (none, true)
      | .pok data =>
        if truthy (jget data JObj.valid) = false then (none, true)
        else
          (some { ianaTimezone := jget data JObj.ianaTimezone
                , fullName := jget data JObj.fullName
                , city := jget data JObj.city
                , country := jget data JObj.country
                , countryCode := jget data JObj.countryCode
                , funFact := jget data JObj.funFact }, true)

/-- GeminiService.resolveLocation as its caller sees it. -/
def resolveLocation (query : String) (remote : RemoteOutcome) :
    Option LocationInfo :=
  (resolveLocationRun query remote).1

/-- A transport-level failure of the remote call: the call itself throws or
rejects, or its body fails to parse as JSON. -/
def transportFails : RemoteOutcome → Bool
  | .rthrow => true
  | .rok text p =>
    match dataOf text p with
    | .perr => true
    | .pok _ => false

/-- The remote call succeeded and the service reported the location invalid:
the parsed body carries the boolean false in its `valid` property. -/
def reportsInvalid : RemoteOutcome → Bool
  | .rthrow => false
  | .rok text p =>
    match dataOf text p with
    | .perr => false
    | .pok data => jget data JObj.valid == .jbool false

/-! Calendar arithmetic, modelling the proleptic Gregorian calendar at a
fixed zero offset, which is how the runtime local timezone is modelled
throughout: the component treats the parsed input date purely as a carrier of
wall-clock numbers, so the choice of local zone is immaterial as long as it is
applied consistently. -/

/-- Days from the Unix epoch of a civil date, by the standard era-based
algorithm (truncated division on operands arranged non-negative). -/
def daysFromCivil (y : Int) (m d : Nat) : Int :=
  let yy : Int := if m ≤ 2 then y - 1 else y
  let era : Int := (if 0 ≤ yy then yy else yy - 399) / 400
  let yoe : Int := yy - era * 400
  let mp : Int := ((m : Int) + 9) % 12
  let doy : Int := (153 * mp + 2) / 5 + (d : Int) - 1
  let doe : Int := yoe * 365 + yoe / 4 - yoe / 100 + doy
  era * 146097 + doe - 719468

/-- Civil date (year, month, day) of a day count from the Unix epoch: the
inverse era-based algorithm. -/
def civilFromDays (z0 : Int) : Int × Nat × Nat :=
  let z : Int := z0 + 719468
  let era : Int := (if 0 ≤ z then z else z - 146096) / 146097
  let doe : Int := z - era * 146097
  let yoe : Int := (doe - doe / 1460 + doe / 36524 - doe / 146096) / 365
  let y : Int := yoe + era * 400
  let doy : Int := doe - (365 * yoe + yoe / 4 - yoe / 100)
  let mp : Int := (5 * doy + 2) / 153
  let d : Int := doy - (153 * mp + 2) / 5 + 1
  let m : Int := if mp < 10 then mp + 3 else mp - 9
  (if m ≤ 2 then y + 1 else y, m.toNat, d.toNat)

/-- Day index (floor) of an epoch-millisecond timestamp. -/
def epochDay (ms : Int) : Int :=
  Int.fdiv ms 86400000

/-- Milliseconds elapsed within the day of an epoch-millisecond timestamp. -/
def msOfDay (ms : Int) : Nat :=
  (Int.emod ms 86400000).toNat

/-- Date.prototype.getDate of a timestamp: its civil day-of-month in the
(offset-zero) local calendar. -/
def dayOfMonth (ms : Int) : Nat :=
  (civilFromDays (epochDay ms)).2.2

/-- Day of week of a timestamp, 0 = Sunday (the epoch day was a Thursday). -/
def weekdayOf (ms : Int) : Nat :=
  (Int.emod (epochDay ms + 4) 7).toNat

def isLeapYear (y : Int) : Bool :=
  (y % 4 == 0 && y % 100 != 0) || y % 400 == 0

def daysInMonth (y : Int) (m : Nat) : Nat :=
  if m = 2 then (if isLeapYear y then 29 else 28)
  else if m = 4 ∨ m = 6 ∨ m = 9 ∨ m = 11 then 30 else 31

/-- Epoch milliseconds of a civil date/time at offset zero. -/
def civilToMs (y : Int) (m d h mi : Nat) : Int :=
  daysFromCivil y m d * 86400000 + (h : Int) * 3600000 + (mi : Int) * 60000

/-- Value of a decimal digit character, if it is one. -/
def digitVal (c : Char) : Option Nat :=
  let n := c.toNat
  if 48 ≤ n ∧ n ≤ 57 then some (n - 48) else none

/-- Value of a string of decimal digits, accumulator form; fails on the first
non-digit. -/
def digitsValAux : Nat → List Char → Option Nat
  | acc, [] => some acc
  | acc, c :: cs =>
    match digitVal c with
    | some d => digitsValAux (acc * 10 + d) cs
    | none => none

/-- A fixed-width decimal field of the ISO date-time grammar. -/
def parseFixed (cs : List Char) (len : Nat) : Option Nat :=
  if cs.length = len then digitsValAux 0 cs else none

/-- Split a character list at every occurrence of a separator character,
modelling String.prototype.split with a single-character separator. -/
def splitListOn (sep : Char) : List Char → List (List Char)
  | [] => [[]]
  | c :: rest =>
    let r := splitListOn sep rest
    if c = sep then [] :: r
    else
      match r with
      | g :: gs => (c :: g) :: gs
      | [] => [[c]]

/-- Model of `new Date(dateStr)` for the strings that reach `selectedDate`:
the datetime-local format YYYY-MM-DDTHH:mm, interpreted as local wall-clock
time, yielding epoch milliseconds.  `none` gathers the paths on which the
source computation ends in an exception and the computed result becomes null:
a string without a time part makes the destructured `timePart.split` throw,
and any other malformed string makes the Date invalid so that the later
format call throws a RangeError.  (Engines accept a few further exotic
strings through the legacy Date parser; `selectedDate` only ever holds this
format, produced by the datetime-local input or by `updateTimeForSource`.) -/
def parseLocalMs (s : String) : Option Int :=
  match splitListOn 'T' s.toList with
  | [dpart, tpart] =>
    match splitListOn '-' dpart, splitListOn ':' tpart with
    | [ys, mos, ds], [hs, mis] =>
      match parseFixed ys 4, parseFixed mos 2, parseFixed ds 2,
            parseFixed hs 2, parseFixed mis 2 with
      | some y, some mo, some d, some h, some mi =>
        if 1 ≤ mo ∧ mo ≤ 12 ∧ 1 ≤ d ∧ d ≤ daysInMonth (y : Int) mo ∧
            h ≤ 23 ∧ mi ≤ 59 then
          some (civilToMs (y : Int) mo d h mi)
        else none
      | _, _, _, _, _ => none
    | _, _ => none
  | _ => none

/-- Two-digit zero-padded rendering of a field value below 100. -/
def pad2 (n : Nat) : String :=
  if n < 10 then "0" ++ toString n else toString n

/-- The YYYY-MM-DDTHH:mm string `updateTimeForSource` assembles from the
formatted parts (app.component.ts, line 117); year is rendered unpadded as by
the en-US numeric year style, the other parts two-digit. -/
def civilToInputString (year : Int) (month day hour minute : Nat) : String :=
  toString year ++ "-" ++ pad2 month ++ "-" ++ pad2 day ++ "T" ++
    pad2 hour ++ ":" ++ pad2 minute

def monthName : Nat → String
  | 1 => "Jan" | 2 => "Feb" | 3 => "Mar" | 4 => "Apr" | 5 => "May" | 6 => "Jun"
  | 7 => "Jul" | 8 => "Aug" | 9 => "Sep" | 10 => "Oct" | 11 => "Nov" | _ => "Dec"

def weekdayName : Nat → String
  | 0 => "Sun" | 1 => "Mon" | 2 => "Tue" | 3 => "Wed" | 4 => "Thu" | 5 => "Fri"
  | _ => "Sat"

/-- en-US 12-hour clock hour rendering with its daytime marker. -/
def hour12Str (h : Nat) : String × String :=
  let ap := if h < 12 then "AM" else "PM"
  let h12 := h % 12
  (toString (if h12 = 0 then 12 else h12), ap)

/-- The timestamp range on which a JavaScript Date is valid; beyond it the
Date is invalid and formatting it throws a RangeError. -/
def MAX_DATE_MS : Nat := 8640000000000000

/-- AppComponent.formatDate on a valid timestamp (app.component.ts, lines
168-177): the en-US rendering with short weekday, short month, numeric day,
numeric hour, two-digit minute, 12-hour clock, in the (offset-zero) local
calendar. -/
def formatDateValid (ms : Int) : String :=
  let c := civilFromDays (epochDay ms)
  let t := msOfDay ms
  let h := t / 3600000
  let mi := t % 3600000 / 60000
  let hp := hour12Str h
  weekdayName (weekdayOf ms) ++ ", " ++ monthName c.2.1 ++ " " ++
    toString c.2.2 ++ ", " ++ hp.1 ++ ":" ++ pad2 mi ++ " " ++ hp.2

/-- AppComponent.formatDate; `none` models the RangeError the Intl formatter
throws on an invalid Date. -/
def formatDate (ms : Int) : Option String :=
  if ms.natAbs ≤ MAX_DATE_MS then some (formatDateValid ms) else none

/-- Wall-clock components produced by the Intl formatToParts call. -/
structure Civil where
  year : Int
  month : Nat
  day : Nat
  hour : Nat
  minute : Nat
deriving DecidableEq

/-- The external date/time facilities of the runtime, abstracted over.
`nowMs` is the current instant.  `tzParts` models
Intl.DateTimeFormat(en-US, timeZone).formatToParts applied to an instant,
yielding its wall-clock components in that zone; `none` models the RangeError
thrown on an invalid timeZone argument.  `wallMs` models the composite
`new Date(instant.toLocaleString(en-US, timeZone)).getTime()`: the wall-clock
reading of the instant in the given zone, re-interpreted as local epoch
milliseconds; `none` models an invalid timeZone throwing, or an unparseable
rendering that poisons the computation with NaN so that the later format call
throws.  Both take the timeZone argument as the runtime value stored in the
location record, which need not be a string. -/
structure Env where
  nowMs : Int
  tzParts : JVal → Int → Option Civil
  wallMs : JVal → Int → Option Int

/-- The reactive state of AppComponent (app.component.ts, lines 17-30).  The
query signals hold whatever runtime value was last stored: a string from the
input binding, or the unvalidated `fullName` of a resolved location. -/
structure ComponentState where
  sourceQuery : JVal
  targetQuery : JVal
  sourceLocation : Option LocationInfo
  targetLocation : Option LocationInfo
  isLoadingSource : Bool
  isLoadingTarget : Bool
  selectedDate : String
  error : Option String
deriving DecidableEq

/-- AppComponent.updateTimeForSource (lines 104-122): formats the current
instant in the given zone and stores the assembled YYYY-MM-DDTHH:mm string in
`selectedDate`; on a formatting failure the catch leaves the state unchanged
(the failure is only logged). -/
def updateTimeForSource (timeZone : JVal) (env : Env) (st : ComponentState) :
    ComponentState :=
  match env.tzParts timeZone env.nowMs with
  | some c =>
    { st with selectedDate := civilToInputString c.year c.month c.day c.hour c.minute }
  | none => st

/-- The not-found error message (app.component.ts, lines 56 and 78). -/
def notFoundMsg (q : String) : String :=
  "Could not find location: " ++ q

/-- The try-block of AppComponent.resolveSource (lines 48-57).  Every step of
the body that could throw is internally guarded: resolveLocation catches all
its own failures and returns null rather than rejecting, and
updateTimeForSource catches its own formatting failures; so the body always
returns normally and the enclosing catch is unreachable. -/
def resolveSourceBody (query : String) (remote : RemoteOutcome) (env : Env)
    (st : ComponentState) : Except Unit (ComponentState × Bool) :=
  match resolveLocationRun query remote with
  | (some result, called) =>
    .ok (updateTimeForSource result.ianaTimezone env
          { st with sourceLocation := some result, sourceQuery := result.fullName },
         called)
  | (none, called) => .ok ({ st with error := some (notFoundMsg query) }, called)

/-- AppComponent.resolveSource (lines 41-63), returning the state after the
whole async method has run to completion, paired with a flag recording
whether a network call was issued.  The single-threaded event loop makes the
method a function from state to state; no other event handler runs between
its suspension points in any of the scenarios the claims quantify over. -/
def resolveSource (query : String) (remote : RemoteOutcome) (env : Env)
    (st : ComponentState) : ComponentState × Bool :=
  if query = "" then (st, false)
  else
    let st1 := { st with isLoadingSource := true, error := none,
                         sourceQuery := JVal.jstr query }
    match resolveSourceBody query remote env st1 with
    | .ok (st2, called) => ({ st2 with isLoadingSource := false }, called)
    | .error _ =>
      ({ st1 with error := some "Failed to resolve source location.",
                  isLoadingSource := false }, true)

/-- The try-block of AppComponent.resolveTarget (lines 72-79); as with the
source slot, no step of the body can throw. -/
def resolveTargetBody (query : String) (remote : RemoteOutcome)
    (st : ComponentState) : Except Unit (ComponentState × Bool) :=
  match resolveLocationRun query remote with
  | (some result, called) =>
    .ok ({ st with targetLocation := some result, targetQuery := result.fullName },
         called)
  | (none, called) => .ok ({ st with error := some (notFoundMsg query) }, called)

/-- AppComponent.resolveTarget (lines 65-85). -/
def resolveTarget (query : String) (remote : RemoteOutcome) (env : Env)
    (st : ComponentState) : ComponentState × Bool :=
  if query = "" then (st, false)
  else
    let st1 := { st with isLoadingTarget := true, error := none,
                         targetQuery := JVal.jstr query }
    match resolveTargetBody query remote st1 with
    | .ok (st2, called) => ({ st2 with isLoadingTarget := false }, called)
    | .error _ =>
      ({ st1 with error := some "Failed to resolve target location.",
                  isLoadingTarget := false }, true)

/-- AppComponent.swapLocations (lines 87-102): a synchronous method (no await),
so the four signal writes happen within one event-loop turn and no observer
can see a half-swapped state; afterwards, if the new source slot is occupied,
the time input is re-seeded from the current instant in its zone. -/
def swapLocations (env : Env) (st : ComponentState) : ComponentState :=
  let sLoc := st.sourceLocation
  let tLoc := st.targetLocation
  let sQ := st.sourceQuery
  let tQ := st.targetQuery
  let st1 := { st with sourceLocation := tLoc, targetLocation := sLoc,
                       sourceQuery := tQ, targetQuery := sQ }
  match tLoc with
  | some l => updateTimeForSource l.ianaTimezone env st1
  | none => st1

/-- The numeric content of `diffHours`: toFixed(1) applied to
diffMs / 3600000, represented as the signed count of tenths of an hour.  The
source renders this as a decimal string with one fractional digit, an
injective rendering of the same information; the rounding is to the nearest
tenth, ties away from zero, which is what toFixed produces on the
quarter-hour differentials real timezone data yields (those are exactly
representable in binary floating point, and toFixed resolves an exact tie to
the larger magnitude). -/
def roundTenths (d : Int) : Int :=
  if d < 0 then -(((d.natAbs + 180000) / 360000 : Nat) : Int)
  else ((d.natAbs + 180000) / 360000 : Nat)

/-- The derived conversion record (app.component.ts, lines 156-161);
`diffHoursTenths` carries the value of the `diffHours` string as tenths of an
hour. -/
structure ConversionResult where
  sourceTimeDisplay : String
  targetTimeDisplay : String
  diffHoursTenths : Int
  isNextDay : Bool
deriving DecidableEq

/-- AppComponent.convertedResult (lines 125-166).  Guard: null when either
location is absent or the date string is empty.  Then, inside the try: the
current instant is rendered in both zones and re-parsed as local timestamps,
whose difference is the offset differential `diffMs`; the input string is
parsed as a local wall-clock timestamp; the target wall-clock timestamp is
the input plus `diffMs`; both are formatted for display.  Every failure path
of the try-block (missing time part, invalid timezone, unparseable rendering,
invalid input date, out-of-range target date) throws, is caught, and yields
null for the whole result: no partial record is ever produced. -/
def convertedResult (env : Env) (st : ComponentState) : Option ConversionResult :=
  match st.sourceLocation, st.targetLocation with
  | some src, some tgt =>
    if st.selectedDate = "" then none
    else
      match env.wallMs src.ianaTimezone env.nowMs,
            env.wallMs tgt.ianaTimezone env.nowMs,
            parseLocalMs st.selectedDate with
      | some srcWall, some tgtWall, some inputMs =>
        let diffMs := tgtWall - srcWall
        let targetMs := inputMs + diffMs
        match formatDate inputMs, formatDate targetMs with
        | some s1, some s2 =>
          some { sourceTimeDisplay := s1
               , targetTimeDisplay := s2
               , diffHoursTenths := roundTenths diffMs
               , isNextDay := dayOfMonth targetMs != dayOfMonth inputMs }
        | _, _ => none
      | _, _, _ => none
  | _, _ => none

/-! Concrete locations, environments and states used to instantiate the
theorems below on explicit inputs. -/

/-- An environment in which every timezone operation fails, as with an
unrecognized zone identifier. -/
def envNoTz : Env :=
  { nowMs := 0, tzParts := fun _ _ => none, wallMs := fun _ _ => none }

/-- A base component state with empty queries and no resolved locations. -/
def stBase : ComponentState :=
  { sourceQuery := .jstr "", targetQuery := .jstr "",
    sourceLocation := none, targetLocation := none,
    isLoadingSource := false, isLoadingTarget := false,
    selectedDate := "2024-06-15T14:30", error := none }

def locLondon : LocationInfo :=
  { ianaTimezone := .jstr "Europe/London",
    fullName := .jstr "London, United Kingdom",
    city := .jstr "London", country := .jstr "United Kingdom",
    countryCode := .jstr "gb", funFact := .jstr "Greenwich sets mean time." }

def locNY : LocationInfo :=
  { ianaTimezone := .jstr "America/New_York",
    fullName := .jstr "New York, United States",
    city := .jstr "New York", country := .jstr "United States",
    countryCode := .jstr "us", funFact := .jstr "The city has four main zones." }

def locTokyo : LocationInfo :=
  { ianaTimezone := .jstr "Asia/Tokyo",
    fullName := .jstr "Tokyo, Japan",
    city := .jstr "Tokyo", country := .jstr "Japan",
    countryCode := .jstr "jp", funFact := .jstr "Japan has a single timezone." }

/-- An instant in June 2024 at which the London wall clock reads
2024-06-15T14:30 and the New York wall clock reads 2024-06-15T09:30 (New York
five hours behind London). -/
def envLN : Env :=
  { nowMs := 1718461800000,
    tzParts := fun _ _ =>
      some { year := 2024, month := 6, day := 15, hour := 9, minute := 5 },
    wallMs := fun tz _ =>
      if tz = JVal.jstr "Europe/London" then some 1718461800000
      else if tz = JVal.jstr "America/New_York" then some 1718443800000
      else none }

def stLN : ComponentState :=
  { stBase with sourceLocation := some locLondon, targetLocation := some locNY,
                selectedDate := "2024-06-15T14:30" }

/-- The same instant with Tokyo as target, its wall clock eight hours ahead of
London (Tokyo at UTC+9 against British Summer Time at UTC+1). -/
def envLT : Env :=
  { nowMs := 1718461800000,
    tzParts := fun _ _ =>
      some { year := 2024, month := 6, day := 15, hour := 9, minute := 5 },
    wallMs := fun tz _ =>
      if tz = JVal.jstr "Europe/London" then some 1718461800000
      else if tz = JVal.jstr "Asia/Tokyo" then some 1718490600000
      else none }

def stLT : ComponentState :=
  { stBase with sourceLocation := some locLondon,
                targetLocation := some locTokyo,
                selectedDate := "2024-06-15T23:00" }

/-! Helper lemmas. -/

/-- A query whose trimmed length is at least 2 passes the length guard of
resolveLocation. -/
theorem guard_ok (q : String) (h2 : 2 ≤ trimmedLen q) :
    ¬(q = "" ∨ trimmedLen q < 2) := by
  rintro (rfl | h)
  · exact absurd h2 (by decide)
  · omega

/-- A digit string of length n has value below 10 ^ n (accumulator form). -/
theorem digitsValAux_lt (cs : List Char) :
    ∀ acc v : Nat, digitsValAux acc cs = some v → v < (acc + 1) * 10 ^ cs.length := by
  induction cs with
  | nil =>
    intro acc v h
    simp only [digitsValAux, Option.some.injEq] at h
    simpa [h] using Nat.lt_succ_self v
  | cons c cs ih =>
    intro acc v h
    simp only [digitsValAux] at h
    rcases hd : digitVal c with _ | d
    · rw [hd] at h; exact absurd h (by simp)
    · rw [hd] at h
      have hd9 : d ≤ 9 := by
        simp only [digitVal] at hd
        split at hd
        · simp only [Option.some.injEq] at hd; omega
        · exact absurd hd (by simp)
      have hv := ih _ _ h
      calc v < (acc * 10 + d + 1) * 10 ^ cs.length := hv
        _ ≤ ((acc + 1) * 10) * 10 ^ cs.length :=
            Nat.mul_le_mul_right _ (by omega)
        _ = (acc + 1) * 10 ^ (cs.length + 1) := by ring
        _ = (acc + 1) * 10 ^ (c :: cs).length := by simp

/-- A fixed-width decimal field is bounded by 10 ^ width. -/
theorem parseFixed_lt (cs : List Char) (len v : Nat)
    (h : parseFixed cs len = some v) : v < 10 ^ len := by
  unfold parseFixed at h
  split at h
  · have := digitsValAux_lt cs 0 v h
    simpa [*] using this
  · exact absurd h (by simp)

theorem daysInMonth_le (y : Int) (m : Nat) : daysInMonth y m ≤ 31 := by
  unfold daysInMonth
  split_ifs <;> omega

/-- Range of the epoch day count over four-digit years. -/
theorem daysFromCivil_bounds (y : Int) (m d : Nat) (hy0 : 0 ≤ y)
    (hy : y ≤ 9999) (hm1 : 1 ≤ m) (hm : m ≤ 12) (hd : d ≤ 31) :
    -1000000 ≤ daysFromCivil y m d ∧ daysFromCivil y m d ≤ 3000000 := by
  unfold daysFromCivil
  dsimp only
  split_ifs <;> constructor <;> omega

/-- Every timestamp the input parser can produce lies within the valid Date
range, so formatting it never throws. -/
theorem parseLocalMs_le (s : String) (t : Int) (h : parseLocalMs s = some t) :
    t.natAbs ≤ MAX_DATE_MS := by
  unfold parseLocalMs at h
  split at h
  case _ dpart tpart _ =>
    split at h
    case _ ys mos ds hs mis _ _ =>
      split at h
      case _ y mo d hh mi hy hmo hd hh2 hmi =>
        split at h
        case isTrue hcond =>
          simp only [Option.some.injEq] at h
          have hylt : y < 10 ^ 4 := parseFixed_lt _ _ _ hy
          have hdm : daysInMonth (y : Int) mo ≤ 31 := daysInMonth_le _ _
          have hy9999 : y ≤ 9999 := by omega
          have hb : -1000000 ≤ daysFromCivil (y : Int) mo d ∧
              daysFromCivil (y : Int) mo d ≤ 3000000 :=
            daysFromCivil_bounds (y : Int) mo d (by positivity)
              (by exact_mod_cast hy9999) (by omega) (by omega) (by omega)
          subst h
          unfold civilToMs MAX_DATE_MS
          omega
        case isFalse => exact absurd h (by simp)
      all_goals exact absurd h (by simp)
    all_goals exact absurd h (by simp)
  all_goals exact absurd h (by simp)

/-- The rounded tenths value differs from the exact differential by at most
half a tenth of an hour (180000 ms). -/
theorem roundTenths_close (d : Int) : (360000 * roundTenths d - d).natAbs ≤ 180000 := by
  unfold roundTenths
  split <;> omega

theorem roundTenths_nonneg (d : Int) (h : 0 ≤ d) : 0 ≤ roundTenths d := by
  unfold roundTenths
  split <;> omega

theorem roundTenths_nonpos (d : Int) (h : d ≤ 0) : roundTenths d ≤ 0 := by
  unfold roundTenths
  split <;> omega

/-- Rounding to tenths is an odd function. -/
theorem roundTenths_neg (d : Int) : roundTenths (-d) = -roundTenths d := by
  unfold roundTenths
  split_ifs <;> omega

theorem updateTimeForSource_sourceLocation (tz : JVal) (env : Env)
    (st : ComponentState) :
    (updateTimeForSource tz env st).sourceLocation = st.sourceLocation := by
  unfold updateTimeForSource
  split <;> rfl

theorem updateTimeForSource_targetLocation (tz : JVal) (env : Env)
    (st : ComponentState) :
    (updateTimeForSource tz env st).targetLocation = st.targetLocation := by
  unfold updateTimeForSource
  split <;> rfl

/-- The swap puts the old target location in the source slot whatever the
outcome of the subsequent time re-seeding. -/
theorem swapLocations_sourceLocation (env : Env) (st : ComponentState) :
    (swapLocations env st).sourceLocation = st.targetLocation := by
  unfold swapLocations
  dsimp only
  split
  · rw [updateTimeForSource_sourceLocation]
  · rfl

theorem swapLocations_targetLocation (env : Env) (st : ComponentState) :
    (swapLocations env st).targetLocation = st.sourceLocation := by
  unfold swapLocations
  dsimp only
  split
  · rw [updateTimeForSource_targetLocation]
  · rfl

/-- On a transport-level failure the service yields null, whatever the
query. -/
theorem resolveLocationRun_fst_of_transport (q : String) (r : RemoteOutcome)
    (h : transportFails r = true) : (resolveLocationRun q r).1 = none := by
  cases r with
  | rthrow =>
    unfold resolveLocationRun
    split <;> rfl
  | rok text p =>
    rcases hd : dataOf text p with _ | data
    · unfold resolveLocationRun
      split
      · rfl
      · dsimp only
        rw [hd]
    · simp [transportFails, hd] at h

/-- Shape of the conversion result when every step succeeds: the offset
differential is the difference of the two wall-clock readings of the current
instant, and it is applied to the parsed input timestamp. -/
theorem convertedResult_eq (env : Env) (st : ComponentState)
    (src tgt : LocationInfo) (a b t : Int)
    (hs : st.sourceLocation = some src) (ht : st.targetLocation = some tgt)
    (ha : env.wallMs src.ianaTimezone env.nowMs = some a)
    (hb : env.wallMs tgt.ianaTimezone env.nowMs = some b)
    (hp : parseLocalMs st.selectedDate = some t)
    (hr : (t + (b - a)).natAbs ≤ MAX_DATE_MS) :
    convertedResult env st = some
      { sourceTimeDisplay := formatDateValid t
      , targetTimeDisplay := formatDateValid (t + (b - a))
      , diffHoursTenths := roundTenths (b - a)
      , isNextDay := dayOfMonth (t + (b - a)) != dayOfMonth t } := by
  have hemp : parseLocalMs "" = none := by decide
  have hne : st.selectedDate ≠ "" := by
    intro he
    rw [he, hemp] at hp
    cases hp
  have hft : formatDate t = some (formatDateValid t) := by
    unfold formatDate
    rw [if_pos (parseLocalMs_le _ _ hp)]
  have hft2 : formatDate (t + (b - a)) = some (formatDateValid (t + (b - a))) := by
    unfold formatDate
    rw [if_pos hr]
  unfold convertedResult
  rw [hs, ht]
  dsimp only
  rw [if_neg hne, ha, hb, hp]
  dsimp only
  rw [hft, hft2]

/-! Claim theorems. -/

/-- C9: for every query string whose trimmed length is less than 2 (including
the empty string), resolveLocation returns null immediately and issues no
network call: the run pair is (none, false) whatever the remote outcome would
have been. -/
theorem resolveLocation_short_query (q : String) (r : RemoteOutcome)
    (h : trimmedLen q < 2) : resolveLocationRun q r = (none, false) := by
  unfold resolveLocationRun
  rw [if_pos (Or.inr h)]

/-- C9 witness: the one-character query resolves to (none, false) even against
a throwing remote. -/
theorem resolveLocation_short_query_witness :
    trimmedLen "x" < 2 ∧ resolveLocationRun "x" RemoteOutcome.rthrow = (none, false) :=
  ⟨by decide, resolveLocation_short_query "x" RemoteOutcome.rthrow (by decide)⟩

/-- C3: for every query of trimmed length at least 2, if the remote call
fails at the transport level (throws/rejects, or its body fails to parse) or
the service reports valid = false, resolveLocation returns null.  The
function is total in this embedding: the try/catch of the source converts
every failure into this null return, so no exception reaches the caller. -/
theorem resolveLocation_failure_none (q : String) (r : RemoteOutcome)
    (h2 : 2 ≤ trimmedLen q)
    (hf : transportFails r = true ∨ reportsInvalid r = true) :
    resolveLocation q r = none := by
  rcases hf with hf | hf
  · exact resolveLocationRun_fst_of_transport q r hf
  · cases r with
    | rthrow => exact absurd hf (by simp [reportsInvalid])
    | rok text p =>
      unfold resolveLocation resolveLocationRun
      rw [if_neg (guard_ok q h2)]
      dsimp only
      rcases hd : dataOf text p with _ | data
      · rfl
      · simp only [reportsInvalid, hd, beq_iff_eq] at hf
        dsimp only
        rw [hf]
        simp [truthy]

/-- C3 witness: a body reporting valid = false yields null for a well-formed
query. -/
theorem resolveLocation_failure_none_witness :
    2 ≤ trimmedLen "Paris" ∧
      resolveLocation "Paris"
        (RemoteOutcome.rok (some "j") (.pok (.tobj { valid := .jbool false }))) = none :=
  ⟨by decide,
   resolveLocation_failure_none "Paris"
     (RemoteOutcome.rok (some "j") (.pok (.tobj { valid := .jbool false })))
     (by decide) (Or.inr (by decide))⟩

/-- C2 counterexample: a response body that does not conform to the required
schema (it carries only the valid flag, none of the six required string
fields) is nevertheless accepted: resolveLocation returns a record, not null,
with every field holding undefined. -/
theorem nonconforming_body_accepted :
    resolveLocation "Paris"
        (RemoteOutcome.rok (some "j") (.pok (.tobj { valid := .jbool true }))) =
      some { ianaTimezone := .jundefined, fullName := .jundefined, city := .jundefined,
             country := .jundefined, countryCode := .jundefined, funFact := .jundefined } ∧
    resolveLocation "Paris"
        (RemoteOutcome.rok (some "j") (.pok (.tobj { valid := .jbool true }))) ≠
      none := by
  constructor
  · decide
  · decide

/-- C2 as amended: for queries that pass the length guard, resolveLocation
treats a response as a failure (returns null) exactly when the body is
unparseable or its valid property is not truthy; the six string fields of the
schema are not validated client-side, so a parseable body with a truthy valid
flag is accepted even when they are missing or not strings. -/
theorem resolveLocation_failure_charact (q : String) (text : Option String)
    (p : ParseResult) (h2 : 2 ≤ trimmedLen q) :
    resolveLocation q (RemoteOutcome.rok text p) = none ↔
      (dataOf text p = .perr ∨
       ∃ data, dataOf text p = .pok data ∧ truthy (jget data JObj.valid) = false) := by
  unfold resolveLocation resolveLocationRun
  rw [if_neg (guard_ok q h2)]
  dsimp only
  rcases hd : dataOf text p with _ | data
  · simp [hd]
  · simp only [hd]
    by_cases hv : truthy (jget data JObj.valid) = false
    · simp [hv]
    · simp [hv]

/-- C2 amended witness: a parseable body with no valid property (the empty
object parsed from a blank response text) is treated as failure. -/
theorem resolveLocation_failure_charact_witness :
    2 ≤ trimmedLen "Paris" ∧
      (resolveLocation "Paris" (RemoteOutcome.rok (some "j") (.pok (.tobj {}))) = none ↔
        (dataOf (some "j") (.pok (.tobj {})) = .perr ∨
         ∃ data, dataOf (some "j") (.pok (.tobj {})) = .pok data ∧
           truthy (jget data JObj.valid) = false)) :=
  ⟨by decide, resolveLocation_failure_charact "Paris" (some "j") (.pok (.tobj {})) (by decide)⟩

/-- C10: calling resolveSource or resolveTarget with the empty-string query
returns immediately: the state is returned unchanged in every field and no
network call is issued. -/
theorem resolve_empty_query_noop (r : RemoteOutcome) (env : Env)
    (st : ComponentState) :
    resolveSource "" r env st = (st, false) ∧
      resolveTarget "" r env st = (st, false) := by
  constructor <;> rfl

/-- C1 counterexample: at a concrete transport-level failure (the remote call
rejects), the user-visible message is the not-found message built from the
query, not the slot-specific generic failure message, for either slot. -/
theorem transport_failure_not_generic :
    (resolveSource "Paris" RemoteOutcome.rthrow envNoTz stBase).1.error =
        some "Could not find location: Paris" ∧
      (resolveSource "Paris" RemoteOutcome.rthrow envNoTz stBase).1.error ≠
        some "Failed to resolve source location." ∧
      (resolveTarget "Paris" RemoteOutcome.rthrow envNoTz stBase).1.error =
        some "Could not find location: Paris" ∧
      (resolveTarget "Paris" RemoteOutcome.rthrow envNoTz stBase).1.error ≠
        some "Failed to resolve target location." := by
  refine ⟨by decide, by decide, by decide, by decide⟩

/-- C1 as amended: a transport-level failure of the remote call is absorbed
inside resolveLocation, which returns null, so for every non-empty query both
slots surface the not-found message built from the query.  The slot-specific
generic messages would be set only if the service call itself threw, which it
never does, so they are unreachable. -/
theorem transport_failure_shows_not_found (q : String) (r : RemoteOutcome)
    (env : Env) (stS stT : ComponentState) (hq : q ≠ "")
    (hf : transportFails r = true) :
    (resolveSource q r env stS).1.error = some (notFoundMsg q) ∧
      (resolveTarget q r env stT).1.error = some (notFoundMsg q) := by
  have hrl : (resolveLocationRun q r).1 = none :=
    resolveLocationRun_fst_of_transport q r hf
  rcases hE : resolveLocationRun q r with ⟨res, called⟩
  rw [hE] at hrl
  dsimp only at hrl
  subst hrl
  constructor
  · unfold resolveSource resolveSourceBody
    rw [if_neg hq, hE]
  · unfold resolveTarget resolveTargetBody
    rw [if_neg hq, hE]

/-- C1 amended witness: the rejecting remote call at a concrete query and
state produces the not-found message on both slots. -/
theorem transport_failure_shows_not_found_witness :
    ("Paris" ≠ "" ∧ transportFails RemoteOutcome.rthrow = true) ∧
      (resolveSource "Paris" RemoteOutcome.rthrow envNoTz stBase).1.error =
        some (notFoundMsg "Paris") ∧
      (resolveTarget "Paris" RemoteOutcome.rthrow envNoTz stBase).1.error =
        some (notFoundMsg "Paris") :=
  ⟨⟨by decide, by decide⟩,
   transport_failure_shows_not_found "Paris" RemoteOutcome.rthrow envNoTz
     stBase stBase (by decide) (by decide)⟩

/-- C5: convertedResult is null whenever the source location is absent, the
target location is absent, or the date string is empty or malformed; and
every exception path inside the computation (a wall-clock reading that
throws, or a computed target outside the valid Date range so that formatting
throws) likewise yields null for the whole result.  The Option result is
either a complete record or none: no partial result exists. -/
theorem convertedResult_fail_closed (env : Env) (st : ComponentState)
    (h : st.sourceLocation = none ∨ st.targetLocation = none ∨
      st.selectedDate = "" ∨ parseLocalMs st.selectedDate = none ∨
      (∃ src, st.sourceLocation = some src ∧
        env.wallMs src.ianaTimezone env.nowMs = none) ∨
      (∃ tgt, st.targetLocation = some tgt ∧
        env.wallMs tgt.ianaTimezone env.nowMs = none) ∨
      (∃ src tgt a b t, st.sourceLocation = some src ∧
        st.targetLocation = some tgt ∧
        env.wallMs src.ianaTimezone env.nowMs = some a ∧
        env.wallMs tgt.ianaTimezone env.nowMs = some b ∧
        parseLocalMs st.selectedDate = some t ∧
        MAX_DATE_MS < (t + (b - a)).natAbs)) :
    convertedResult env st = none := by
  rcases hsrc : st.sourceLocation with _ | src
  · simp [convertedResult, hsrc]
  rcases htgt : st.targetLocation with _ | tgt
  · simp [convertedResult, hsrc, htgt]
  by_cases hd : st.selectedDate = ""
  · simp [convertedResult, hsrc, htgt, hd]
  unfold convertedResult
  rw [hsrc, htgt]
  dsimp only
  rw [if_neg hd]
  rcases hA : env.wallMs src.ianaTimezone env.nowMs with _ | a
  · rcases hB : env.wallMs tgt.ianaTimezone env.nowMs with _ | b <;>
      rcases hP : parseLocalMs st.selectedDate with _ | t <;> rfl
  rcases hB : env.wallMs tgt.ianaTimezone env.nowMs with _ | b
  · rcases hP : parseLocalMs st.selectedDate with _ | t <;> rfl
  rcases hP : parseLocalMs st.selectedDate with _ | t
  · rfl
  dsimp only
  have hrange : MAX_DATE_MS < (t + (b - a)).natAbs := by
    rcases h with h | h | h | h | ⟨src2, h1, h2⟩ | ⟨tgt2, h1, h2⟩ |
      ⟨src2, tgt2, a2, b2, t2, h1, h2, h3, h4, h5, h6⟩
    · rw [hsrc] at h; cases h
    · rw [htgt] at h; cases h
    · exact absurd h hd
    · rw [hP] at h; cases h
    · rw [hsrc] at h1; injection h1 with e; subst e; rw [hA] at h2; cases h2
    · rw [htgt] at h1; injection h1 with e; subst e; rw [hB] at h2; cases h2
    · rw [hsrc] at h1; injection h1 with e; subst e
      rw [htgt] at h2; injection h2 with e; subst e
      rw [hA] at h3; injection h3 with e; subst e
      rw [hB] at h4; injection h4 with e; subst e
      rw [hP] at h5; injection h5 with e; subst e
      exact h6
  have hf2 : formatDate (t + (b - a)) = none := by
    unfold formatDate
    rw [if_neg (by omega)]
  rw [hf2]
  rcases hF : formatDate t with _ | s1 <;> rfl

/-- C5 witness: with the source slot empty the result is null. -/
theorem convertedResult_fail_closed_witness :
    stBase.sourceLocation = none ∧ convertedResult envNoTz stBase = none :=
  ⟨rfl, convertedResult_fail_closed envNoTz stBase (Or.inl rfl)⟩

/-- C4: on a successful conversion, diffHours carries (as tenths of an hour)
the hour offset between target and source computed at the current instant:
it equals the rounding to one decimal place of the wall-clock differential
b - a, lies within half a tenth of the exact differential, and has its
sign. -/
theorem convertedResult_diffHours (env : Env) (st : ComponentState)
    (src tgt : LocationInfo) (a b t : Int)
    (hs : st.sourceLocation = some src) (ht : st.targetLocation = some tgt)
    (ha : env.wallMs src.ianaTimezone env.nowMs = some a)
    (hb : env.wallMs tgt.ianaTimezone env.nowMs = some b)
    (hp : parseLocalMs st.selectedDate = some t)
    (hr : (t + (b - a)).natAbs ≤ MAX_DATE_MS) :
    ∃ r, convertedResult env st = some r ∧
      r.diffHoursTenths = roundTenths (b - a) ∧
      (360000 * r.diffHoursTenths - (b - a)).natAbs ≤ 180000 ∧
      (0 ≤ b - a → 0 ≤ r.diffHoursTenths) ∧
      (b - a ≤ 0 → r.diffHoursTenths ≤ 0) :=
  ⟨_, convertedResult_eq env st src tgt a b t hs ht ha hb hp hr, rfl,
   roundTenths_close _, roundTenths_nonneg _, roundTenths_nonpos _⟩

/-- C4 witness: London as source and New York as target at an instant where
New York reads five hours behind: diffHours comes out as -5.0 (minus fifty
tenths), within half a tenth of the exact differential and of its sign. -/
theorem convertedResult_diffHours_witness :
    ∃ r, convertedResult envLN stLN = some r ∧
      r.diffHoursTenths = roundTenths (1718443800000 - 1718461800000) ∧
      (360000 * r.diffHoursTenths - (1718443800000 - 1718461800000)).natAbs ≤ 180000 ∧
      (0 ≤ (1718443800000 : Int) - 1718461800000 → 0 ≤ r.diffHoursTenths) ∧
      ((1718443800000 : Int) - 1718461800000 ≤ 0 → r.diffHoursTenths ≤ 0) :=
  convertedResult_diffHours envLN stLN locLondon locNY
    1718461800000 1718443800000 1718461800000
    rfl rfl (by decide) (by decide) (by decide) (by decide)

/-- C6: on a successful conversion, isNextDay is true exactly when the
day-of-month of the computed target wall-clock timestamp differs from the
day-of-month of the input wall-clock timestamp. -/
theorem convertedResult_isNextDay (env : Env) (st : ComponentState)
    (src tgt : LocationInfo) (a b t : Int)
    (hs : st.sourceLocation = some src) (ht : st.targetLocation = some tgt)
    (ha : env.wallMs src.ianaTimezone env.nowMs = some a)
    (hb : env.wallMs tgt.ianaTimezone env.nowMs = some b)
    (hp : parseLocalMs st.selectedDate = some t)
    (hr : (t + (b - a)).natAbs ≤ MAX_DATE_MS) :
    ∃ r, convertedResult env st = some r ∧
      (r.isNextDay = true ↔ dayOfMonth (t + (b - a)) ≠ dayOfMonth t) :=
  ⟨_, convertedResult_eq env st src tgt a b t hs ht ha hb hp hr,
   by simp [bne_iff_ne]⟩

/-- C6 witness: London to Tokyo at 23:00 with Tokyo eight hours ahead rolls
into the next calendar day, and isNextDay is true accordingly. -/
theorem convertedResult_isNextDay_witness :
    ∃ r, convertedResult envLT stLT = some r ∧
      (r.isNextDay = true ↔
        dayOfMonth (1718492400000 + (1718490600000 - 1718461800000)) ≠
          dayOfMonth 1718492400000) :=
  convertedResult_isNextDay envLT stLT locLondon locTokyo
    1718461800000 1718490600000 1718492400000
    rfl rfl (by decide) (by decide) (by decide) (by decide)

/-- C7: converting with source A and target B, and converting the swapped
state at the same instant (source B, target A), yields diffHours values of
equal magnitude and opposite sign. -/
theorem swap_diffHours_antisymm (env : Env) (st : ComponentState)
    (A B : LocationInfo) (a b t t2 : Int)
    (hs : st.sourceLocation = some A) (ht : st.targetLocation = some B)
    (ha : env.wallMs A.ianaTimezone env.nowMs = some a)
    (hb : env.wallMs B.ianaTimezone env.nowMs = some b)
    (hp : parseLocalMs st.selectedDate = some t)
    (hr : (t + (b - a)).natAbs ≤ MAX_DATE_MS)
    (hp2 : parseLocalMs (swapLocations env st).selectedDate = some t2)
    (hr2 : (t2 + (a - b)).natAbs ≤ MAX_DATE_MS) :
    ∃ r1 r2, convertedResult env st = some r1 ∧
      convertedResult env (swapLocations env st) = some r2 ∧
      r2.diffHoursTenths = -r1.diffHoursTenths ∧
      r2.diffHoursTenths.natAbs = r1.diffHoursTenths.natAbs := by
  have h1 := convertedResult_eq env st A B a b t hs ht ha hb hp hr
  have hs2 : (swapLocations env st).sourceLocation = some B := by
    rw [swapLocations_sourceLocation, ht]
  have ht2 : (swapLocations env st).targetLocation = some A := by
    rw [swapLocations_targetLocation, hs]
  have h2 := convertedResult_eq env (swapLocations env st) B A b a t2
    hs2 ht2 hb ha hp2 hr2
  refine ⟨_, _, h1, h2, ?_, ?_⟩
  · show roundTenths (a - b) = -roundTenths (b - a)
    rw [show a - b = -(b - a) by ring, roundTenths_neg]
  · show (roundTenths (a - b)).natAbs = (roundTenths (b - a)).natAbs
    rw [show a - b = -(b - a) by ring, roundTenths_neg, Int.natAbs_neg]

/-- C7 witness: the London/New York pair converted both ways at the same
instant. -/
theorem swap_diffHours_antisymm_witness :
    ∃ r1 r2, convertedResult envLN stLN = some r1 ∧
      convertedResult envLN (swapLocations envLN stLN) = some r2 ∧
      r2.diffHoursTenths = -r1.diffHoursTenths ∧
      r2.diffHoursTenths.natAbs = r1.diffHoursTenths.natAbs :=
  swap_diffHours_antisymm envLN stLN locLondon locNY
    1718461800000 1718443800000 1718461800000 1718442300000
    rfl rfl (by decide) (by decide) (by decide) (by decide) (by decide) (by decide)

/-- C8: swapLocations exchanges the two LocationInfo slots and their query
texts together (the method is synchronous, so all four writes land in one
event-loop turn and no half-swapped state is observable), and, the new
source slot being occupied and its zone formattable, re-derives the
wall-clock input to the current real time in the new source zone in
YYYY-MM-DDTHH:mm form, discarding the previously entered value. -/
theorem swapLocations_spec (env : Env) (st : ComponentState)
    (l : LocationInfo) (c : Civil) (ht : st.targetLocation = some l)
    (hc : env.tzParts l.ianaTimezone env.nowMs = some c) :
    swapLocations env st =
      { st with sourceLocation := some l, targetLocation := st.sourceLocation,
                sourceQuery := st.targetQuery, targetQuery := st.sourceQuery,
                selectedDate :=
                  civilToInputString c.year c.month c.day c.hour c.minute } := by
  unfold swapLocations
  dsimp only
  rw [ht]
  dsimp only
  unfold updateTimeForSource
  rw [hc]

/-- C8 witness: swapping the London/New York state re-seeds the input to the
formatted current New York wall time. -/
theorem swapLocations_spec_witness :
    swapLocations envLN stLN =
      { stLN with sourceLocation := some locNY,
                  targetLocation := stLN.sourceLocation,
                  sourceQuery := stLN.targetQuery,
                  targetQuery := stLN.sourceQuery,
                  selectedDate := civilToInputString 2024 6 15 9 5 } :=
  swapLocations_spec envLN stLN locNY
    { year := 2024, month := 6, day := 15, hour := 9, minute := 5 } rfl rfl

end Otime
